import Mathlib

/-!
Shallow embedding of the command-dispatch and input-rebinding subsystem of
the poetry CLI shell (`src/poetry/console/application.py`) and of the
`Poetry` project object (`src/poetry/poetry.py`).

Python objects become Lean structures; mutation becomes explicit state
passing; exceptions become `Except`; the external collaborators (cleo's
binding machinery, the environment manager, the plugin manager, the
command loader) are modelled as oracles/parameters where their internals
are out of scope, and their observable results are plain data.
-/

/- ## cleo-side data: exceptions, option values, option definitions -/

/-- A cleo `CleoException` raised by an input-binding pass. -/
inductive CleoException where
  | bindError : String → CleoException
deriving DecidableEq, Repr

/-- A bound option value, with Python truthiness.  cleo option values are
booleans, strings, lists of strings or `None`. -/
inductive Val where
  | bool : Bool → Val
  | str : String → Val
  | list : List String → Val
  | null : Val
deriving DecidableEq, Repr

/-- Python truthiness of an option value (`if value:`). -/
def Val.truthy : Val → Bool
  | .bool b => b
  | .str s => !(s == "")
  | .list l => !l.isEmpty
  | .null => false

/-- A global option of the application definition: its long name and its
(optional) stored shortcut string. -/
structure GOpt where
  name : String
  shortcut : Option String
deriving DecidableEq, Repr

/-- The application's global input definition: a list of options. -/
structure InputDefinition where
  options : List GOpt
deriving DecidableEq, Repr

/-- Lookup `definition.option(name)` (successful case). -/
def InputDefinition.findOption (d : InputDefinition) (n : String) : Option GOpt :=
  d.options.find? (fun o => o.name == n)

/- ## string helpers used by `_configure_io` -/

/-- Python `s.lstrip("-")`: drop all leading dash characters. -/
def lstripDashes (s : String) : String :=
  String.mk (s.data.dropWhile (fun c => c == '-'))

/-- Worker for `re.split(r"\|-?", s)`: split at every bar, also consuming
one dash that immediately follows the bar (the regex is greedy). -/
def splitShortcutAux : List Char → List Char → List String
  | [], acc => [String.mk acc.reverse]
  | '|' :: '-' :: rest, acc => String.mk acc.reverse :: splitShortcutAux rest []
  | '|' :: rest, acc => String.mk acc.reverse :: splitShortcutAux rest []
  | c :: rest, acc => splitShortcutAux rest (c :: acc)

/-- Python `re.split(r"\|-?", s)` as used on a shortcut string. -/
def splitShortcut (s : String) : List String :=
  splitShortcutAux s.data []

/-- The parameter-option tokens contributed by one stored shortcut string
(application.py lines 211-214): strip leading dashes, split on `\|-?`,
discard empty fragments, declare `"-" + fragment.lstrip("-")` for each. -/
def shortcutParamOpts (shortcut : String) : List String :=
  ((splitShortcut (lstripDashes shortcut)).filter (fun s => !(s == ""))).map
    (fun s => "-" ++ lstripDashes s)

/- ## inputs -/

/-- The original `ArgvInput` as `_configure_io` sees it: its raw token
list (`argv[1:]`), the first positional argument cleo computes from the
tokens, and the option items obtained from the (tolerant) bind against
the global definition.  The cleo parsing internals are external; their
observable results are carried as data. -/
structure ArgvInputModel where
  tokens : List String
  firstArgument : Option String
  options : List (String × Val)
deriving DecidableEq, Repr

/-- The rebuilt `RunArgvInput`: the argv it was seeded with, the declared
parameter options (in declaration order) and the option values set on it
after the second bind (in application order). -/
structure RunInputModel where
  argv : List String
  parameterOptions : List String
  optionsSet : List (String × Val)
deriving DecidableEq, Repr

/-- The raw token list of a `RunArgvInput` (its constructor strips
`argv[0]`, the program name). -/
def RunInputModel.tokens (r : RunInputModel) : List String :=
  r.argv.drop 1

/-- The shell's active input after `_configure_io`: either the original
input, untouched, or the rebuilt run input. -/
inductive ActiveInput where
  | original : ArgvInputModel → ActiveInput
  | rebuilt : RunInputModel → ActiveInput
deriving DecidableEq, Repr

/- ## errors and suppression -/

/-- The errors that can arise in this core. -/
inductive Err where
  | cleo : CleoException → Err
  | logic : String → Err
  | listenerFailure : String → Err
  | commandLoadError : String → Err
  | pluginActivationError : String → Err
deriving DecidableEq, Repr

/-- An input-binding call, given the oracle outcome of the external cleo
bind (`some e` means the bind raised `e`). -/
def bindCall (r : Option CleoException) : Except Err Unit :=
  match r with
  | some e => .error (.cleo e)
  | none => .ok ()

/-- Python `with suppress(CleoException): body` — a `CleoException` escaping the
body is swallowed; any other error still propagates. -/
def withSuppressCleo (body : Except Err Unit) : Except Err Unit :=
  match body with
  | .error (.cleo _) => .ok ()
  | .error e => .error e
  | .ok _ => .ok ()

/-- Oracle outcomes for the two binding passes of `_configure_io`. -/
structure BindOracle where
  bindOriginal : Option CleoException
  bindRun : Option CleoException
deriving DecidableEq, Repr

/- ## `_configure_io` -/

/-- The first loop of the run-rewrite (application.py lines 206-214): for
each bound option item with a truthy value, look the option up in the
global definition, declare `--name` as a parameter option, then declare
each shortcut alias.  A failed lookup raises cleo's logic error (outside
any suppression). -/
def declareParamOpts (d : InputDefinition) : List (String × Val) → Except Err (List String)
  | [] => .ok []
  | (n, v) :: rest =>
    if v.truthy then
      match d.findOption n with
      | none => .error (.logic n)
      | some o => do
        let others ← declareParamOpts d rest
        .ok ((("--" ++ o.name) ::
              (match o.shortcut with
               | some sc => shortcutParamOpts sc
               | none => [])) ++ others)
    else declareParamOpts d rest

/-- Model of `Application._configure_io` (application.py lines 191-225).  The
tolerant bind of the original input runs first; if the first positional
argument is the pass-through command name `"run"`, a `RunArgvInput` is
built from `[app name] + original tokens`, the supplied (truthy) global
options are re-declared on it, a second tolerant bind runs, and the
supplied values are re-applied; the rebuilt input replaces the active
input.  Otherwise the active input stays the original input. -/
def configure_io (appName : String) (d : InputDefinition) (bo : BindOracle)
    (inp : ArgvInputModel) : Except Err ActiveInput := do
  let _ ← withSuppressCleo (bindCall bo.bindOriginal)
  match inp.firstArgument with
  | some name =>
    if name == "run" then do
      let argv := appName :: inp.tokens
      let pOpts ← declareParamOpts d inp.options
      let _ ← withSuppressCleo (bindCall bo.bindRun)
      let sOpts := inp.options.filter (fun p => p.2.truthy)
      .ok (.rebuilt { argv := argv, parameterOptions := pOpts, optionsSet := sOpts })
    else .ok (.original inp)
  | none => .ok (.original inp)

/-- Modelled from the spec: the parse pass of `RunArgvInput`
(`poetry/console/io/inputs/run_argv_input.py`, not under `src/`).  Per
the spec, the rebuilt input recognizes exactly the declared parameter
options while everything from the pass-through command name onward stays
opaque positional data in original order: tokens are scanned in order,
a token matching a declared parameter option is extracted as an option,
and from the first token that is not a declared parameter option onward
every token is a positional argument, verbatim.  Returns
(extracted option tokens, positional tokens). -/
def runInputParseAux (pOpts : List String) : List String → Bool → List String × List String
  | [], _ => ([], [])
  | t :: rest, argSeen =>
    if argSeen then
      let p := runInputParseAux pOpts rest true
      (p.1, t :: p.2)
    else if pOpts.contains t then
      let p := runInputParseAux pOpts rest false
      (t :: p.1, p.2)
    else
      let p := runInputParseAux pOpts rest true
      (p.1, t :: p.2)

/-- Modelled from the spec: parse of the rebuilt input's token stream —
see `runInputParseAux`. -/
def runInputParse (pOpts : List String) (tokens : List String) : List String × List String :=
  runInputParseAux pOpts tokens false

/-- The token stream that the claim attributes to the rebuilt input: the
program name followed by everything after and including `"run"`. -/
def claimedRunArgv (appName : String) (tokens : List String) : List String :=
  appName :: tokens.dropWhile (fun t => !(t == "run"))

/-- The parameter options the rewrite ought to declare, computed as a
pure function: for each supplied (truthy) option, its long form and its
shortcut aliases. -/
def specParamOpts (d : InputDefinition) (opts : List (String × Val)) : List String :=
  (opts.filter (fun p => p.2.truthy)).flatMap
    (fun p =>
      match d.findOption p.1 with
      | none => []
      | some o =>
          ("--" ++ o.name) ::
          (match o.shortcut with
           | some sc => shortcutParamOpts sc
           | none => []))

/-- All truthy option names of an item list are present in the
definition. -/
def optsDefined (d : InputDefinition) (opts : List (String × Val)) : Prop :=
  ∀ p ∈ opts, p.2.truthy → (d.findOption p.1).isSome

/- ## verbosity and logging -/

/-- cleo output verbosity levels. -/
inductive Verbosity where
  | quiet | normal | verbose | veryVerbose | debug
deriving DecidableEq, Repr

/-- Numeric rank of a verbosity level (ordering only). -/
def Verbosity.rank : Verbosity → Nat
  | .quiet => 0
  | .normal => 1
  | .verbose => 2
  | .veryVerbose => 3
  | .debug => 4

/-- cleo `io.is_verbose()`. -/
def Verbosity.isVerbose (v : Verbosity) : Bool := 2 ≤ v.rank

/-- cleo `io.is_very_verbose()`. -/
def Verbosity.isVeryVerbose (v : Verbosity) : Bool := 3 ≤ v.rank

/-- cleo `io.is_debug()`. -/
def Verbosity.isDebug (v : Verbosity) : Bool := 4 ≤ v.rank

/-- The IO handle a handler is bound to: its verbosity plus an identity
tag so distinct IO objects are distinguishable. -/
structure IOCtx where
  verbosity : Verbosity
  ioId : Nat
deriving DecidableEq, Repr

/-- Python `logging` severity constants. -/
def logWARNING : Nat := 30
/-- Python `logging.INFO`. -/
def logINFO : Nat := 20
/-- Python `logging.DEBUG`. -/
def logDEBUG : Nat := 10

/-- The `IOFormatter` attached to the handler. -/
inductive LogFormatter where
  | ioFormatter
deriving DecidableEq, Repr

/-- An `IOHandler(io)` with its formatter. -/
structure IOHandler where
  io : IOCtx
  formatter : LogFormatter
deriving DecidableEq, Repr

/-- Configuration of one logger channel in the global `logging` state. -/
structure LoggerCfg where
  handlers : List IOHandler
  level : Nat
deriving DecidableEq, Repr

/-- The global `logging` state: each channel name's configuration. -/
def LoggerState : Type := String → LoggerCfg

/-- Point update of the logging state. -/
def LoggerState.update (st : LoggerState) (name : String) (cfg : LoggerCfg) : LoggerState :=
  fun n => if n == name then cfg else st n

/- ## commands and the three listeners -/

/-- A resolved environment handle (`env.path`, `env.is_venv()`). -/
structure EnvHandle where
  path : String
  isVenv : Bool
deriving DecidableEq, Repr

/-- The project context a command's `poetry` exposes to the installer
wiring (`poetry.package/locker/pool/config`).  The config carries the
boolean keys `config.get` can read. -/
structure PoetryCtx where
  package : String
  locker : String
  pool : String
  config : List (String × Bool)
deriving DecidableEq, Repr

/-- Read `config.get(key, default)` for a boolean key. -/
def PoetryCtx.configGet (p : PoetryCtx) (key : String) (dflt : Bool) : Bool :=
  match p.config.lookup key with
  | some b => b
  | none => dflt

/-- The `Installer` built by `_configure_installer`: the arguments it is
constructed from, plus the `use_executor` flag selected from the
`experimental.new-installer` config key. -/
structure InstallerModel where
  io : IOCtx
  env : Option EnvHandle
  package : String
  locker : String
  pool : String
  config : List (String × Bool)
  useExecutor : Bool
deriving DecidableEq, Repr

/-- A command instance as the listeners see it: capability membership
flags (`isinstance` against `Command` / `EnvCommand` /
`InstallerCommand`), the declared extra logger channels, the optional
attached environment and installer, and the project context. -/
structure CommandModel where
  isCommand : Bool
  loggers : List String
  isEnvCommand : Bool
  env : Option EnvHandle
  isInstallerCommand : Bool
  installer : Option InstallerModel
  poetry : PoetryCtx
deriving DecidableEq, Repr

/-- The fixed base logger channels (application.py lines 239-243). -/
def baseLoggers : List String :=
  ["poetry.packages.locker", "poetry.packages.package", "poetry.utils.password_manager"]

/-- The severity threshold `register_command_loggers` assigns to one
channel (application.py lines 255-264): WARNING by default, INFO for the
`poetry.core.masonry.builders` family, then overridden to DEBUG when the
output is debug, to INFO when it is (very) verbose. -/
def loggerLevel (io : IOCtx) (name : String) : Nat :=
  let base :=
    if name.startsWith "poetry.core.masonry.builders" then logINFO else logWARNING
  if io.verbosity.isDebug then logDEBUG
  else if io.verbosity.isVeryVerbose || io.verbosity.isVerbose then logINFO
  else base

/-- Model of `Application.register_command_loggers` (application.py lines 227-266):
for a poetry `Command`, set each channel in the base list plus the
command's declared loggers to exactly one IO-bound handler and the
verbosity-derived severity threshold; for any other command, do
nothing. -/
def registerCommandLoggers (io : IOCtx) (cmd : CommandModel) (st : LoggerState) : LoggerState :=
  if !cmd.isCommand then st
  else
    let handler : IOHandler := { io := io, formatter := .ioFormatter }
    (baseLoggers ++ cmd.loggers).foldl
      (fun s name => s.update name { handlers := [handler], level := loggerLevel io name }) st

/-- Model of `Application.configure_env` (application.py lines 268-291): for an
`EnvCommand` with no environment attached, create a venv through the
environment manager (oracle `freshEnv`), emit one line when verbose and
the environment is a real venv, and attach it; otherwise do nothing.
Returns the (possibly mutated) command and the lines written. -/
def configureEnv (freshEnv : EnvHandle) (io : IOCtx) (cmd : CommandModel) :
    CommandModel × List String :=
  if !cmd.isEnvCommand then (cmd, [])
  else if cmd.env.isSome then (cmd, [])
  else
    let env := freshEnv
    let out :=
      if env.isVenv && io.verbosity.isVerbose then
        ["Using virtualenv: <comment>" ++ env.path ++ "</>"]
      else []
    ({ cmd with env := some env }, out)

/-- Model of `Application.configure_installer` together with
`Application._configure_installer` (application.py lines 293-322): for an
`InstallerCommand` with no installer attached, build an `Installer` from
the io, the command's environment and the project context, select
`use_executor` from `experimental.new-installer`, and attach it;
otherwise do nothing. -/
def configureInstaller (io : IOCtx) (cmd : CommandModel) : CommandModel :=
  if !cmd.isInstallerCommand then cmd
  else if cmd.installer.isSome then cmd
  else
    let poetry := cmd.poetry
    let installer : InstallerModel :=
      { io := io, env := cmd.env, package := poetry.package, locker := poetry.locker,
        pool := poetry.pool, config := poetry.config,
        useExecutor := poetry.configGet "experimental.new-installer" false }
    { cmd with installer := some installer }

/-- The pre-execution pipeline in registration order (application.py
lines 102-105): logger configuration, environment resolution, installer
wiring.  Returns the final command, the logging state and the lines
written. -/
def runPipeline (freshEnv : EnvHandle) (io : IOCtx) (cmd : CommandModel)
    (st : LoggerState) : CommandModel × LoggerState × List String :=
  let st1 := registerCommandLoggers io cmd st
  let p := configureEnv freshEnv io cmd
  let cmd2 := configureInstaller io p.1
  (cmd2, st1, p.2)

/-- The command-mutating part of one pipeline run (the logging state is
global, not on the command). -/
def pipelineCmdStep (freshEnv : EnvHandle) (io : IOCtx) (cmd : CommandModel) : CommandModel :=
  configureInstaller io (configureEnv freshEnv io cmd).1

/- ## plugin loading -/

/-- cleo `input.has_parameter_option(name)` on the raw token list: some
token equals the name or starts with the name followed by `=`. -/
def hasParameterOption (tokens : List String) (name : String) : Bool :=
  tokens.any (fun t => t == name || t.startsWith (name ++ "="))

/-- Process-wide shell state for plugin loading; `activations` counts
how many times plugin discovery/activation has been performed. -/
structure AppState where
  pluginsLoaded : Bool
  disablePlugins : Bool
  activations : Nat
deriving DecidableEq, Repr

/-- Model of `Application._load_plugins` (application.py lines 324-337), with the
outcome of `PluginManager.load_plugins`/`activate` as the oracle `act`
(`some e` means activation raised `e`).  If plugins are already loaded
this process, nothing happens.  Otherwise `--no-plugins` is read from
the raw input; when absent, plugins are discovered and activated (an
activation failure propagates before the loaded flag is set); finally
the loaded flag is set permanently. -/
def loadPlugins (act : Option Err) (tokens : List String) (st : AppState) :
    Except Err AppState :=
  if st.pluginsLoaded then .ok st
  else
    let disable := hasParameterOption tokens "--no-plugins"
    if disable then
      .ok { pluginsLoaded := true, disablePlugins := true, activations := st.activations }
    else
      match act with
      | some e => .error e
      | none =>
        .ok { pluginsLoaded := true, disablePlugins := false,
              activations := st.activations + 1 }

/- ## the shell's run loop and top-level error rendering -/

/-- Oracle outcomes for the external collaborators of one dispatch:
plugin activation, command loading, the listener pipeline (whose
internals may call external collaborators and raise), and command
execution. -/
structure DispatchOracle where
  bind : BindOracle
  pluginActivation : Option Err
  commandLoad : Except Err CommandModel
  listeners : CommandModel → Except Err CommandModel
  execute : CommandModel → Except Err Int

/-- One `Application._run` dispatch (application.py lines 184-189,
together with the base class's configure-io / resolve / dispatch /
execute sequence): load plugins, configure the io, load the command,
fire the listener pipeline, execute.  The `Except` monad performs no
catching: every error raised outside the two suppressed binds
propagates. -/
def appRun (appName : String) (d : InputDefinition) (o : DispatchOracle)
    (st : AppState) (inp : ArgvInputModel) : Except Err (Int × AppState) := do
  let st' ← loadPlugins o.pluginActivation inp.tokens st
  let _ ← configure_io appName d o.bind inp
  let cmd ← o.commandLoad
  let cmd2 ← o.listeners cmd
  let code ← o.execute cmd2
  .ok (code, st')

/-- Outcome of a whole run as the user sees it: a clean exit code, or an
error that reached `Application.render_error` (which builds the solution
provider repository lazily, on this path only, before printing). -/
inductive RunOutcome where
  | exited : Int → AppState → RunOutcome
  | rendered : Err → RunOutcome
deriving DecidableEq, Repr

/-- The top-level run: any error escaping the dispatch is rendered by
`render_error` (application.py lines 177-182). -/
def shellRun (appName : String) (d : InputDefinition) (o : DispatchOracle)
    (st : AppState) (inp : ArgvInputModel) : RunOutcome :=
  match appRun appName d o st inp with
  | .ok p => .exited p.1 p.2
  | .error e => .rendered e

/- ## the cached `Application.poetry` accessor -/

/-- A constructed `Poetry` project context, tagged with a construction
identity (each `Factory().create_poetry` call yields a fresh object). -/
structure PoetryHandle where
  ctorId : Nat
deriving DecidableEq, Repr

/-- The application's cache state for the `poetry` accessor: the cached
instance (if any) and the next construction identity of the factory. -/
structure PoetryCacheState where
  cache : Option PoetryHandle
  nextId : Nat
deriving DecidableEq, Repr

/-- Every cached instance was constructed earlier than the factory's
next construction identity. -/
def PoetryCacheState.wf (st : PoetryCacheState) : Prop :=
  ∀ p, st.cache = some p → p.ctorId < st.nextId

/-- The `Application.poetry` property (application.py lines 111-124):
return the cached instance if present, otherwise construct a fresh one
through the factory, cache it and return it. -/
def poetryAccessor (st : PoetryCacheState) : PoetryHandle × PoetryCacheState :=
  match st.cache with
  | some p => (p, st)
  | none =>
    let p : PoetryHandle := { ctorId := st.nextId }
    (p, { cache := some p, nextId := st.nextId + 1 })

/-- Model of `Application.reset_poetry` (application.py lines 130-131): clear the
cache. -/
def resetPoetry (st : PoetryCacheState) : PoetryCacheState :=
  { st with cache := none }

/- ## the `Poetry` object and its setters (`src/poetry/poetry.py`) -/

/-- A locker handle. -/
structure LockerH where
  lockerId : Nat
deriving DecidableEq, Repr

/-- A repository pool handle. -/
structure PoolH where
  poolId : Nat
deriving DecidableEq, Repr

/-- A config handle. -/
structure ConfigH where
  configId : Nat
deriving DecidableEq, Repr

/-- A plugin-manager handle. -/
structure PluginManagerH where
  pmId : Nat
deriving DecidableEq, Repr

/-- The `Poetry` object (poetry.py): the base fields set by
`BasePoetry.__init__` (file, local configuration, package) and the
fields this subclass manages (`_locker`, `_config`, `_pool`,
`_plugin_manager`). -/
structure PoetryObj where
  file : String
  localConfig : List (String × String)
  package : String
  locker : LockerH
  config : ConfigH
  pool : PoolH
  pluginManager : Option PluginManagerH
deriving DecidableEq, Repr

/-- Model of `Poetry.__init__` (poetry.py lines 24-39): stores file, local config,
package, locker and config; the pool starts as a fresh `Pool()` and the
plugin manager as `None`. -/
def PoetryObj.mkNew (file : String) (localConfig : List (String × String))
    (package : String) (locker : LockerH) (config : ConfigH)
    (freshPool : PoolH) : PoetryObj :=
  { file := file, localConfig := localConfig, package := package,
    locker := locker, config := config, pool := freshPool, pluginManager := none }

/-- Model of `Poetry.set_locker` (poetry.py lines 53-56); the Python method
mutates `self` and returns it, so the returned object is the updated
receiver. -/
def PoetryObj.set_locker (p : PoetryObj) (locker : LockerH) : PoetryObj :=
  { p with locker := locker }

/-- Model of `Poetry.set_pool` (poetry.py lines 58-61). -/
def PoetryObj.set_pool (p : PoetryObj) (pool : PoolH) : PoetryObj :=
  { p with pool := pool }

/-- Model of `Poetry.set_config` (poetry.py lines 63-66). -/
def PoetryObj.set_config (p : PoetryObj) (config : ConfigH) : PoetryObj :=
  { p with config := config }

/-- Model of `Poetry.set_plugin_manager` (poetry.py lines 68-71). -/
def PoetryObj.set_plugin_manager (p : PoetryObj) (pm : PluginManagerH) : PoetryObj :=
  { p with pluginManager := some pm }

/-- Extract the argv of the rebuilt input from a `_configure_io` result,
if the active input was replaced. -/
def rebuiltArgv : Except Err ActiveInput → Option (List String)
  | .ok (.rebuilt r) => some r.argv
  | _ => none

/-- The severity threshold as the specification words it (stated for
comparison with the code's `loggerLevel`): WARNING at base verbosity,
INFO when verbose or very verbose, DEBUG when debug, except that
channels in the `poetry.core.masonry.builders` family default to INFO
instead of WARNING at base verbosity. -/
def claimedLevel (io : IOCtx) (chan : String) : Nat :=
  if io.verbosity.isDebug then logDEBUG
  else if io.verbosity.isVerbose || io.verbosity.isVeryVerbose then logINFO
  else if chan.startsWith "poetry.core.masonry.builders" then logINFO
  else logWARNING

/- ## helper lemmas -/

/-- A suppressed binding call never yields an error. -/
theorem withSuppressCleo_bindCall (r : Option CleoException) :
    withSuppressCleo (bindCall r) = .ok () := by
  cases r <;> rfl

/-- The rebinder `_configure_io` does not depend on the outcomes of its two
(suppressed) binding passes. -/
theorem configure_io_bind_irrel (appName : String) (d : InputDefinition)
    (bo bo' : BindOracle) (inp : ArgvInputModel) :
    configure_io appName d bo inp = configure_io appName d bo' inp := by
  simp only [configure_io, withSuppressCleo_bindCall]

/-- Characterization of `_configure_io` on the run branch. -/
theorem configure_io_run (appName : String) (d : InputDefinition) (bo : BindOracle)
    (inp : ArgvInputModel) (ps : List String)
    (h1 : inp.firstArgument = some "run")
    (h2 : declareParamOpts d inp.options = .ok ps) :
    configure_io appName d bo inp =
      .ok (.rebuilt { argv := appName :: inp.tokens, parameterOptions := ps,
                      optionsSet := inp.options.filter (fun p => p.2.truthy) }) := by
  simp only [configure_io, withSuppressCleo_bindCall, h1, h2]
  rfl

/-- Characterization of `_configure_io` when the first positional
argument is not the pass-through name. -/
theorem configure_io_other (appName : String) (d : InputDefinition) (bo : BindOracle)
    (inp : ArgvInputModel) (h : inp.firstArgument ≠ some "run") :
    configure_io appName d bo inp = .ok (.original inp) := by
  simp only [configure_io, withSuppressCleo_bindCall]
  cases hfa : inp.firstArgument with
  | none => rfl
  | some name =>
    have hne : (name == "run") = false := by
      rw [beq_eq_false_iff_ne]
      intro hh
      exact h (by rw [hfa, hh])
    simp only [hne]
    rfl

/-- A `declareParamOpts` failure is always the option-lookup logic
error, never a cleo binding error. -/
theorem declareParamOpts_error (d : InputDefinition) :
    ∀ (opts : List (String × Val)) (e : Err),
      declareParamOpts d opts = .error e → ∃ n, e = .logic n := by
  intro opts
  induction opts with
  | nil => intro e h; exact absurd h (by simp [declareParamOpts])
  | cons p rest ih =>
    intro e h
    obtain ⟨n, v⟩ := p
    by_cases hv : v.truthy = true
    · cases hfo : d.findOption n with
      | none =>
        simp only [declareParamOpts, hv, if_true, hfo] at h
        exact ⟨n, ((Except.error.injEq _ _).mp h).symm⟩
      | some o =>
        simp only [declareParamOpts, hv, if_true, hfo] at h
        cases hrest : declareParamOpts d rest with
        | ok others =>
          rw [hrest] at h
          have h2 : (Except.ok ((("--" ++ o.name) ::
              (match o.shortcut with
               | some sc => shortcutParamOpts sc
               | none => [])) ++ others) : Except Err (List String)) = .error e := h
          exact absurd h2 (by simp)
        | error e' =>
          rw [hrest] at h
          have h2 : (Except.error e' : Except Err (List String)) = .error e := h
          have he : e' = e := by simpa using h2
          exact he ▸ ih e' hrest
    · simp only [declareParamOpts, hv, if_false] at h
      exact ih e h

/-- With every supplied option present in the definition, the
declaration loop computes exactly the pure snapshot `specParamOpts`. -/
theorem declareParamOpts_eq (d : InputDefinition) :
    ∀ opts : List (String × Val), optsDefined d opts →
      declareParamOpts d opts = .ok (specParamOpts d opts) := by
  intro opts
  induction opts with
  | nil => intro _; rfl
  | cons p rest ih =>
    intro h
    obtain ⟨n, v⟩ := p
    have hrest : optsDefined d rest := fun q hq => h q (List.mem_cons_of_mem _ hq)
    cases hv : v.truthy with
    | true =>
      have hs := h (n, v) (List.mem_cons_self _ _) hv
      obtain ⟨o, ho⟩ := Option.isSome_iff_exists.mp hs
      have hspec : specParamOpts d ((n, v) :: rest) =
          (("--" ++ o.name) ::
            (match o.shortcut with
             | some sc => shortcutParamOpts sc
             | none => [])) ++ specParamOpts d rest := by
        simp [specParamOpts, List.filter_cons, hv, List.flatMap_cons, ho]
      simp only [declareParamOpts, hv, if_true, ho, ih hrest, hspec]
      rfl
    | false =>
      have hspec : specParamOpts d ((n, v) :: rest) = specParamOpts d rest := by
        simp [specParamOpts, List.filter_cons, hv]
      simp only [declareParamOpts, hv, if_false, ih hrest, hspec]
      simp

/-- The snapshot depends only on the supplied (truthy) options. -/
theorem specParamOpts_filter_truthy (d : InputDefinition) (opts : List (String × Val)) :
    specParamOpts d (opts.filter (fun p => p.2.truthy)) = specParamOpts d opts := by
  simp [specParamOpts, List.filter_filter]

/-- A string starting with a dash is not the token `"run"`. -/
theorem dash_append_ne_run (s : String) : ("-" ++ s) ≠ "run" := by
  intro h
  have h2 := congrArg String.data h
  rw [String.data_append] at h2
  have h3 : ('-' :: s.data) = ['r', 'u', 'n'] := h2
  injection h3 with h4 _
  exact absurd h4 (by decide)

/-- A string starting with two dashes is not the token `"run"`. -/
theorem ddash_append_ne_run (s : String) : ("--" ++ s) ≠ "run" := by
  intro h
  have h2 := congrArg String.data h
  rw [String.data_append] at h2
  have h3 : ('-' :: '-' :: s.data) = ['r', 'u', 'n'] := h2
  injection h3 with h4 _
  exact absurd h4 (by decide)

/-- Every declared parameter option starts with a dash, so the
pass-through command name is never among them. -/
theorem run_not_mem_specParamOpts (d : InputDefinition) (opts : List (String × Val)) :
    "run" ∉ specParamOpts d opts := by
  intro h
  rw [specParamOpts, List.mem_flatMap] at h
  obtain ⟨p, _, hmem⟩ := h
  cases hfo : d.findOption p.1 with
  | none => rw [hfo] at hmem; exact absurd hmem (by simp)
  | some o =>
    rw [hfo] at hmem
    rcases List.mem_cons.mp hmem with h1 | h2
    · exact ddash_append_ne_run o.name h1.symm
    · cases hsc : o.shortcut with
      | none => rw [hsc] at h2; exact absurd h2 (by simp)
      | some sc =>
        rw [hsc] at h2
        simp only [shortcutParamOpts, List.mem_map] at h2
        obtain ⟨a, _, ha⟩ := h2
        exact dash_append_ne_run (lstripDashes a) ha

/-- The suffix of the token list from the pass-through command name
onward survives a drop of leading recognized-option tokens, provided
the command name is not itself a recognized option. -/
theorem dropWhile_run_suffix (pOpts : List String) (h : pOpts.contains "run" = false) :
    ∀ ts : List String,
      ts.dropWhile (fun t => !(t == "run")) <:+ ts.dropWhile (fun t => pOpts.contains t) := by
  intro ts
  induction ts with
  | nil => simp
  | cons t ts ih =>
    by_cases ht : t = "run"
    · subst ht
      simp only [List.dropWhile_cons, h]
      simp
    · have hbt : (t == "run") = false := beq_eq_false_iff_ne.mpr ht
      cases hc : pOpts.contains t with
      | true =>
        simp only [List.dropWhile_cons, hbt, hc, Bool.not_false, if_true]
        exact ih
      | false =>
        simp only [List.dropWhile_cons, hbt, hc, Bool.not_false, if_true, if_false]
        exact (List.dropWhile_suffix _).trans (List.suffix_cons t ts)

/-- Once an argument has been seen, the modelled run-input parse keeps
every remaining token as positional data. -/
theorem runInputParseAux_argSeen (pOpts : List String) :
    ∀ ts : List String, runInputParseAux pOpts ts true = ([], ts) := by
  intro ts
  induction ts with
  | nil => rfl
  | cons t ts ih => simp [runInputParseAux, ih]

/-- The modelled run-input parse extracts exactly the leading run of
declared parameter options; everything from the first other token
onward is positional, verbatim. -/
theorem runInputParse_eq (pOpts : List String) :
    ∀ ts : List String,
      runInputParse pOpts ts =
        (ts.takeWhile (fun t => pOpts.contains t), ts.dropWhile (fun t => pOpts.contains t)) := by
  intro ts
  induction ts with
  | nil => rfl
  | cons t ts ih =>
    cases hc : pOpts.contains t with
    | true =>
      have hm : t ∈ pOpts := by simpa using hc
      simp only [runInputParse, runInputParseAux, hc, if_true, if_false]
      rw [runInputParse] at ih
      simp [ih, List.takeWhile_cons, List.dropWhile_cons, hc, hm]
    | false =>
      have hm : t ∉ pOpts := by simpa using hc
      simp only [runInputParse, runInputParseAux, hc, if_false]
      simp [runInputParseAux_argSeen, List.takeWhile_cons, List.dropWhile_cons, hc, hm]

/-- Lookup after the logger-configuration fold: every name in the list
is set to the given handler and its level; every other name is
untouched. -/
theorem foldl_loggerUpdate_lookup (io : IOCtx) (h : IOHandler) :
    ∀ (names : List String) (st : LoggerState) (n : String),
      (names.foldl
        (fun s name => s.update name { handlers := [h], level := loggerLevel io name }) st) n
        = if n ∈ names then { handlers := [h], level := loggerLevel io n } else st n := by
  intro names
  induction names with
  | nil => intro st n; simp
  | cons x xs ih =>
    intro st n
    rw [List.foldl_cons, ih]
    by_cases h1 : n ∈ xs
    · simp [h1, List.mem_cons]
    · by_cases h2 : n = x
      · subst h2
        simp [h1, LoggerState.update, List.mem_cons]
      · simp [h1, h2, LoggerState.update, List.mem_cons]

/-- The code's per-channel severity computation agrees with the
claim's wording of it. -/
theorem claimedLevel_eq_loggerLevel (io : IOCtx) (chan : String) :
    claimedLevel io chan = loggerLevel io chan := by
  cases hv : io.verbosity <;>
    simp [claimedLevel, loggerLevel, Verbosity.isDebug, Verbosity.isVeryVerbose,
      Verbosity.isVerbose, Verbosity.rank, hv]

/-- Lookup after `register_command_loggers`, for a poetry command. -/
theorem registerCommandLoggers_lookup (io : IOCtx) (cmd : CommandModel) (st : LoggerState)
    (hc : cmd.isCommand = true) (n : String) :
    registerCommandLoggers io cmd st n =
      if n ∈ baseLoggers ++ cmd.loggers
      then { handlers := [{ io := io, formatter := LogFormatter.ioFormatter }],
             level := loggerLevel io n }
      else st n := by
  rw [registerCommandLoggers, hc]
  simp only [Bool.not_true, Bool.false_eq_true, if_false]
  exact foldl_loggerUpdate_lookup io _ _ st n

/-- The listener `configure_env` is the identity (and writes nothing) when the
command is not env-aware or already has an environment. -/
theorem configureEnv_noop (freshEnv : EnvHandle) (io : IOCtx) (cmd : CommandModel)
    (h : cmd.isEnvCommand = false ∨ cmd.env.isSome = true) :
    configureEnv freshEnv io cmd = (cmd, []) := by
  rcases h with h | h
  · simp [configureEnv, h]
  · cases hE : cmd.isEnvCommand <;> simp [configureEnv, hE, h]

/-- The listener `configure_env` does not change the env-awareness flag. -/
theorem configureEnv_isEnvCommand (freshEnv : EnvHandle) (io : IOCtx) (cmd : CommandModel) :
    (configureEnv freshEnv io cmd).1.isEnvCommand = cmd.isEnvCommand := by
  cases hE : cmd.isEnvCommand <;> cases he : cmd.env <;>
    simp [configureEnv, hE, he]

/-- After `configure_env`, an env-aware command has an environment. -/
theorem configureEnv_env_isSome (freshEnv : EnvHandle) (io : IOCtx) (cmd : CommandModel)
    (h : cmd.isEnvCommand = true) :
    ((configureEnv freshEnv io cmd).1).env.isSome = true := by
  cases he : cmd.env <;> simp [configureEnv, h, he]

/-- A second `configure_env` on the result of a first is a no-op that
writes nothing. -/
theorem configureEnv_twice (freshEnv : EnvHandle) (io : IOCtx) (cmd : CommandModel) :
    configureEnv freshEnv io (configureEnv freshEnv io cmd).1 =
      ((configureEnv freshEnv io cmd).1, []) := by
  cases hE : cmd.isEnvCommand with
  | false =>
    apply configureEnv_noop
    left
    rw [configureEnv_isEnvCommand, hE]
  | true =>
    apply configureEnv_noop
    right
    exact configureEnv_env_isSome freshEnv io cmd hE

/-- The listener `configure_installer` is the identity when the command is not
installer-aware or already has an installer. -/
theorem configureInstaller_noop (io : IOCtx) (cmd : CommandModel)
    (h : cmd.isInstallerCommand = false ∨ cmd.installer.isSome = true) :
    configureInstaller io cmd = cmd := by
  rcases h with h | h
  · simp [configureInstaller, h]
  · cases hI : cmd.isInstallerCommand <;> simp [configureInstaller, hI, h]

/-- The listener `configure_installer` does not change the installer-awareness flag. -/
theorem configureInstaller_isInstallerCommand (io : IOCtx) (cmd : CommandModel) :
    (configureInstaller io cmd).isInstallerCommand = cmd.isInstallerCommand := by
  cases hI : cmd.isInstallerCommand <;> cases hi : cmd.installer <;>
    simp [configureInstaller, hI, hi]

/-- After `configure_installer`, an installer-aware command has an
installer. -/
theorem configureInstaller_installer_isSome (io : IOCtx) (cmd : CommandModel)
    (h : cmd.isInstallerCommand = true) :
    (configureInstaller io cmd).installer.isSome = true := by
  cases hi : cmd.installer <;> simp [configureInstaller, h, hi]

/-- The listener `configure_installer` run twice equals it run once. -/
theorem configureInstaller_twice (io : IOCtx) (cmd : CommandModel) :
    configureInstaller io (configureInstaller io cmd) = configureInstaller io cmd := by
  cases hI : cmd.isInstallerCommand with
  | false =>
    apply configureInstaller_noop
    left
    rw [configureInstaller_isInstallerCommand, hI]
  | true =>
    apply configureInstaller_noop
    right
    exact configureInstaller_installer_isSome io cmd hI

/-- The listener `configure_installer` does not touch the environment or the
env-awareness flag. -/
theorem configureInstaller_env (io : IOCtx) (cmd : CommandModel) :
    (configureInstaller io cmd).env = cmd.env ∧
      (configureInstaller io cmd).isEnvCommand = cmd.isEnvCommand := by
  cases hI : cmd.isInstallerCommand <;> cases hi : cmd.installer <;>
    simp [configureInstaller, hI, hi]

/-- The command-mutating part of the pipeline is idempotent. -/
theorem pipelineCmdStep_idem (freshEnv : EnvHandle) (io : IOCtx) (cmd : CommandModel) :
    pipelineCmdStep freshEnv io (pipelineCmdStep freshEnv io cmd) =
      pipelineCmdStep freshEnv io cmd := by
  rw [pipelineCmdStep, pipelineCmdStep]
  have henv : configureEnv freshEnv io (configureInstaller io (configureEnv freshEnv io cmd).1)
      = (configureInstaller io (configureEnv freshEnv io cmd).1, []) := by
    apply configureEnv_noop
    cases hE : cmd.isEnvCommand with
    | false =>
      left
      rw [(configureInstaller_env io _).2, configureEnv_isEnvCommand, hE]
    | true =>
      right
      rw [(configureInstaller_env io _).1]
      exact configureEnv_env_isSome freshEnv io cmd hE
  rw [henv]
  exact configureInstaller_twice io _

/-- When plugins are already loaded this process, `_load_plugins` does
nothing. -/
theorem loadPlugins_already (act : Option Err) (tokens : List String) (st : AppState)
    (h : st.pluginsLoaded = true) : loadPlugins act tokens st = .ok st := by
  simp [loadPlugins, h]

/-- Any successful `_load_plugins` leaves the loaded flag set. -/
theorem loadPlugins_ok_loaded (act : Option Err) (tokens : List String) (st st' : AppState)
    (h : loadPlugins act tokens st = .ok st') : st'.pluginsLoaded = true := by
  unfold loadPlugins at h
  cases hl : st.pluginsLoaded with
  | true =>
    rw [hl] at h
    simp only [if_true] at h
    have h2 : st = st' := by simpa using h
    rw [← h2]
    exact hl
  | false =>
    rw [hl] at h
    simp only [Bool.false_eq_true, if_false] at h
    cases hdp : hasParameterOption tokens "--no-plugins" with
    | true =>
      simp only [hdp, if_true] at h
      have h2 : ({ pluginsLoaded := true, disablePlugins := true,
                   activations := st.activations } : AppState) = st' := by simpa using h
      rw [← h2]
    | false =>
      simp only [hdp, Bool.false_eq_true, if_false] at h
      cases act with
      | some e => simp at h
      | none =>
        have h2 : ({ pluginsLoaded := true, disablePlugins := false,
                     activations := st.activations + 1 } : AppState) = st' := by simpa using h
        rw [← h2]

/-- C8: within one process, plugin discovery and activation happens at
most once.  On a fresh state `_load_plugins` performs activation exactly
when the `--no-plugins` parameter option is absent from the raw input
(incrementing the activation count by one, else by zero), the loaded
flag is then set; once the loaded flag is set, any later invocation
changes nothing and performs no activation. -/
theorem C8_plugins_load_once :
    (∀ (tokens : List String) (st : AppState), st.pluginsLoaded = false →
        loadPlugins none tokens st =
          .ok { pluginsLoaded := true,
                disablePlugins := hasParameterOption tokens "--no-plugins",
                activations := st.activations +
                  (if hasParameterOption tokens "--no-plugins" then 0 else 1) })
    ∧ (∀ (act : Option Err) (tokens : List String) (st : AppState),
        st.pluginsLoaded = true → loadPlugins act tokens st = .ok st)
    ∧ (∀ (act : Option Err) (tokens : List String) (st st' : AppState),
        loadPlugins act tokens st = .ok st' → st'.pluginsLoaded = true)
    ∧ (∀ (tokens tokens' : List String) (st st' st'' : AppState),
        loadPlugins none tokens st = .ok st' →
        loadPlugins none tokens' st' = .ok st'' → st'' = st') := by
  refine ⟨?_, ?_, ?_, ?_⟩
  · intro tokens st h
    cases hdp : hasParameterOption tokens "--no-plugins" <;>
      simp [loadPlugins, h, hdp]
  · intro act tokens st h
    exact loadPlugins_already act tokens st h
  · intro act tokens st st' h
    exact loadPlugins_ok_loaded act tokens st st' h
  · intro tokens tokens' st st' st'' h1 h2
    have hl := loadPlugins_ok_loaded none tokens st st' h1
    rw [loadPlugins_already none tokens' st' hl] at h2
    simpa using h2.symm

/-- C8 witness: a run with plugins enabled activates once, a second run
changes nothing. -/
theorem C8_plugins_load_once_witness :
    loadPlugins none ["install"] { pluginsLoaded := false, disablePlugins := false,
                                   activations := 0 } =
      .ok { pluginsLoaded := true, disablePlugins := false, activations := 0 + 1 } := by
  have h := C8_plugins_load_once.1 ["install"]
    { pluginsLoaded := false, disablePlugins := false, activations := 0 } rfl
  exact h.trans (by rfl)

/-- C9: the `poetry` accessor caches: a repeated read returns the same
instance and leaves the state unchanged; `reset_poetry` clears the
cache, after which the next read constructs a fresh instance (a new
construction identity, distinct from the one read before the reset). -/
theorem C9_poetry_cached_accessor (st : PoetryCacheState) :
    ((poetryAccessor (poetryAccessor st).2).1 = (poetryAccessor st).1
       ∧ (poetryAccessor (poetryAccessor st).2).2 = (poetryAccessor st).2)
    ∧ (resetPoetry st).cache = none
    ∧ (poetryAccessor (resetPoetry st)).1 = { ctorId := st.nextId }
    ∧ (poetryAccessor (resetPoetry st)).2.nextId = st.nextId + 1
    ∧ (st.wf → (poetryAccessor (resetPoetry (poetryAccessor st).2)).1 ≠ (poetryAccessor st).1) := by
  refine ⟨?_, rfl, rfl, rfl, ?_⟩
  · cases hc : st.cache <;> simp [poetryAccessor, hc]
  · intro hwf
    cases hc : st.cache with
    | none =>
      simp only [poetryAccessor, resetPoetry, hc]
      intro he
      have h2 : st.nextId + 1 = st.nextId := congrArg PoetryHandle.ctorId he
      omega
    | some p =>
      have hlt := hwf p hc
      simp only [poetryAccessor, resetPoetry, hc]
      intro he
      have h2 : st.nextId = p.ctorId := congrArg PoetryHandle.ctorId he
      omega

/-- C9 witness: read, read again, reset, read fresh. -/
theorem C9_poetry_cached_accessor_witness :
    (poetryAccessor (poetryAccessor { cache := none, nextId := 0 }).2).1 =
        (poetryAccessor { cache := none, nextId := 0 }).1
      ∧ (poetryAccessor (resetPoetry
            (poetryAccessor { cache := none, nextId := 0 }).2)).1 ≠
          (poetryAccessor { cache := none, nextId := 0 }).1 := by
  have h := C9_poetry_cached_accessor { cache := none, nextId := 0 }
  exact ⟨h.1.1, h.2.2.2.2 (by intro p hp; simp at hp)⟩

/-- C10: each `Poetry` setter updates exactly the field it names, keeps
every other field, and returns the updated receiver itself (the Python
method returns `self`). -/
theorem C10_setters_frame (p : PoetryObj) (l : LockerH) (pl : PoolH) (c : ConfigH)
    (pm : PluginManagerH) :
    ((p.set_locker l).locker = l ∧ (p.set_locker l).file = p.file
      ∧ (p.set_locker l).localConfig = p.localConfig ∧ (p.set_locker l).package = p.package
      ∧ (p.set_locker l).config = p.config ∧ (p.set_locker l).pool = p.pool
      ∧ (p.set_locker l).pluginManager = p.pluginManager)
    ∧ ((p.set_pool pl).pool = pl ∧ (p.set_pool pl).file = p.file
      ∧ (p.set_pool pl).localConfig = p.localConfig ∧ (p.set_pool pl).package = p.package
      ∧ (p.set_pool pl).locker = p.locker ∧ (p.set_pool pl).config = p.config
      ∧ (p.set_pool pl).pluginManager = p.pluginManager)
    ∧ ((p.set_config c).config = c ∧ (p.set_config c).file = p.file
      ∧ (p.set_config c).localConfig = p.localConfig ∧ (p.set_config c).package = p.package
      ∧ (p.set_config c).locker = p.locker ∧ (p.set_config c).pool = p.pool
      ∧ (p.set_config c).pluginManager = p.pluginManager)
    ∧ ((p.set_plugin_manager pm).pluginManager = some pm
      ∧ (p.set_plugin_manager pm).file = p.file
      ∧ (p.set_plugin_manager pm).localConfig = p.localConfig
      ∧ (p.set_plugin_manager pm).package = p.package
      ∧ (p.set_plugin_manager pm).locker = p.locker
      ∧ (p.set_plugin_manager pm).config = p.config
      ∧ (p.set_plugin_manager pm).pool = p.pool) := by
  refine ⟨?_, ?_, ?_, ?_⟩ <;> exact ⟨rfl, rfl, rfl, rfl, rfl, rfl, rfl⟩

/-- C5: each pre-execution listener returns without mutating anything
when the command lacks its target capability, and the whole pipeline on
a command with none of the capabilities attaches no log handler, no
environment and no installer. -/
theorem C5_no_capability_no_mutation (freshEnv : EnvHandle) (io : IOCtx)
    (cmd : CommandModel) (st : LoggerState) :
    (cmd.isCommand = false → registerCommandLoggers io cmd st = st)
    ∧ (cmd.isEnvCommand = false → configureEnv freshEnv io cmd = (cmd, []))
    ∧ (cmd.isInstallerCommand = false → configureInstaller io cmd = cmd)
    ∧ (cmd.isCommand = false → cmd.isEnvCommand = false → cmd.isInstallerCommand = false →
        runPipeline freshEnv io cmd st = (cmd, st, [])) := by
  refine ⟨?_, ?_, ?_, ?_⟩
  · intro h
    simp [registerCommandLoggers, h]
  · intro h
    exact configureEnv_noop freshEnv io cmd (Or.inl h)
  · intro h
    exact configureInstaller_noop io cmd (Or.inl h)
  · intro h1 h2 h3
    simp [runPipeline, registerCommandLoggers, h1,
      configureEnv_noop freshEnv io cmd (Or.inl h2),
      configureInstaller_noop io cmd (Or.inl h3)]

/-- C5 witness: the pipeline at a command with none of the capabilities
is the identity. -/
theorem C5_no_capability_no_mutation_witness :
    runPipeline { path := "/venv", isVenv := true } { verbosity := Verbosity.normal, ioId := 0 }
        { isCommand := false, loggers := [], isEnvCommand := false, env := none,
          isInstallerCommand := false, installer := none,
          poetry := { package := "p", locker := "l", pool := "r", config := [] } }
        (fun _ => { handlers := [], level := 0 }) =
      ({ isCommand := false, loggers := [], isEnvCommand := false, env := none,
         isInstallerCommand := false, installer := none,
         poetry := { package := "p", locker := "l", pool := "r", config := [] } },
       (fun _ => { handlers := [], level := 0 }), []) :=
  (C5_no_capability_no_mutation _ _ _ _).2.2.2 rfl rfl rfl

/-- C6: the environment-resolution and installer-wiring listeners skip
a command whose environment (resp. installer) is already attached, a
second application is a no-op, and any positive number of pipeline runs
equals a single run. -/
theorem C6_second_run_noop (freshEnv : EnvHandle) (io : IOCtx) :
    (∀ cmd : CommandModel, cmd.env.isSome = true → configureEnv freshEnv io cmd = (cmd, []))
    ∧ (∀ cmd : CommandModel, cmd.installer.isSome = true → configureInstaller io cmd = cmd)
    ∧ (∀ cmd : CommandModel,
        configureEnv freshEnv io (configureEnv freshEnv io cmd).1 =
          ((configureEnv freshEnv io cmd).1, []))
    ∧ (∀ cmd : CommandModel,
        configureInstaller io (configureInstaller io cmd) = configureInstaller io cmd)
    ∧ (∀ (cmd : CommandModel) (n : Nat),
        (pipelineCmdStep freshEnv io)^[n + 1] cmd = pipelineCmdStep freshEnv io cmd) := by
  refine ⟨?_, ?_, ?_, ?_, ?_⟩
  · intro cmd h
    exact configureEnv_noop freshEnv io cmd (Or.inr h)
  · intro cmd h
    exact configureInstaller_noop io cmd (Or.inr h)
  · intro cmd
    exact configureEnv_twice freshEnv io cmd
  · intro cmd
    exact configureInstaller_twice io cmd
  · intro cmd n
    induction n with
    | zero => simp
    | succ k ih =>
      rw [Function.iterate_succ_apply', ih]
      exact pipelineCmdStep_idem freshEnv io cmd

/-- C6 witness: a command with an environment attached is skipped, and
two pipeline runs equal one. -/
theorem C6_second_run_noop_witness :
    configureEnv { path := "/venv", isVenv := true } { verbosity := Verbosity.normal, ioId := 0 }
        { isCommand := true, loggers := [], isEnvCommand := true,
          env := some { path := "/venv", isVenv := true },
          isInstallerCommand := false, installer := none,
          poetry := { package := "p", locker := "l", pool := "r", config := [] } } =
      ({ isCommand := true, loggers := [], isEnvCommand := true,
         env := some { path := "/venv", isVenv := true },
         isInstallerCommand := false, installer := none,
         poetry := { package := "p", locker := "l", pool := "r", config := [] } }, [])
    ∧ (pipelineCmdStep { path := "/venv", isVenv := true }
          { verbosity := Verbosity.normal, ioId := 0 })^[2]
        { isCommand := true, loggers := [], isEnvCommand := true, env := none,
          isInstallerCommand := true, installer := none,
          poetry := { package := "p", locker := "l", pool := "r", config := [] } } =
      pipelineCmdStep { path := "/venv", isVenv := true }
          { verbosity := Verbosity.normal, ioId := 0 }
        { isCommand := true, loggers := [], isEnvCommand := true, env := none,
          isInstallerCommand := true, installer := none,
          poetry := { package := "p", locker := "l", pool := "r", config := [] } } :=
  ⟨(C6_second_run_noop _ _).1 _ rfl, (C6_second_run_noop _ _).2.2.2.2 _ 1⟩

/-- C7: for a poetry command, the logger listener sets every channel in
the fixed base set plus the command's declared loggers to exactly one
output-bound handler and the verbosity-derived threshold (WARNING at
base verbosity, INFO when verbose or very verbose, DEBUG when debug,
with the `poetry.core.masonry.builders` family defaulting to INFO), and
touches no other channel. -/
theorem C7_logger_channels_and_levels (io : IOCtx) (cmd : CommandModel) (st : LoggerState)
    (hc : cmd.isCommand = true) :
    (∀ chan, chan ∈ baseLoggers ++ cmd.loggers →
        registerCommandLoggers io cmd st chan =
          { handlers := [{ io := io, formatter := LogFormatter.ioFormatter }],
            level := claimedLevel io chan })
    ∧ (∀ chan, chan ∉ baseLoggers ++ cmd.loggers →
        registerCommandLoggers io cmd st chan = st chan) := by
  constructor
  · intro chan hm
    rw [registerCommandLoggers_lookup io cmd st hc chan, if_pos hm,
      claimedLevel_eq_loggerLevel]
  · intro chan hm
    rw [registerCommandLoggers_lookup io cmd st hc chan, if_neg hm]

/-- C7 witness: at debug verbosity the base channel gets the IO-bound
handler at level DEBUG. -/
theorem C7_logger_channels_and_levels_witness :
    registerCommandLoggers { verbosity := Verbosity.debug, ioId := 7 }
        { isCommand := true, loggers := ["poetry.core.masonry.builders.builder"],
          isEnvCommand := false, env := none, isInstallerCommand := false, installer := none,
          poetry := { package := "p", locker := "l", pool := "r", config := [] } }
        (fun _ => { handlers := [], level := 0 }) "poetry.packages.locker" =
      { handlers := [{ io := { verbosity := Verbosity.debug, ioId := 7 },
                       formatter := LogFormatter.ioFormatter }],
        level := 10 } := by
  have h := (C7_logger_channels_and_levels { verbosity := Verbosity.debug, ioId := 7 }
      { isCommand := true, loggers := ["poetry.core.masonry.builders.builder"],
        isEnvCommand := false, env := none, isInstallerCommand := false, installer := none,
        poetry := { package := "p", locker := "l", pool := "r", config := [] } }
      (fun _ => { handlers := [], level := 0 }) rfl).1 "poetry.packages.locker"
      (by simp [baseLoggers])
  exact h.trans (by rfl)

/-- The rebinder `_configure_io` never surfaces a cleo binding exception: its only
possible error is the option-lookup logic error. -/
theorem configure_io_no_cleo (appName : String) (d : InputDefinition) (bo : BindOracle)
    (inp : ArgvInputModel) (e : CleoException) :
    configure_io appName d bo inp ≠ .error (.cleo e) := by
  intro h
  by_cases hr : inp.firstArgument = some "run"
  · cases hd : declareParamOpts d inp.options with
    | ok ps =>
      rw [configure_io_run appName d bo inp ps hr hd] at h
      exact absurd h (by simp)
    | error e' =>
      have hcfg : configure_io appName d bo inp = .error e' := by
        simp only [configure_io, withSuppressCleo_bindCall, hr, hd]
        rfl
      rw [hcfg] at h
      have he : e' = .cleo e := by simpa using h
      obtain ⟨n, hn⟩ := declareParamOpts_error d inp.options e' hd
      rw [hn] at he
      exact Err.noConfusion he
  · rw [configure_io_other appName d bo inp hr] at h
    exact absurd h (by simp)

/-- C1 counterexample: with a global option supplied before `run`, the
rebuilt input's token stream is the program name followed by ALL the
original tokens, not the program name followed by only the tokens from
`run` onward as the claim states. -/
theorem C1_passthrough_counterexample :
    rebuiltArgv (configure_io "poetry" { options := [{ name := "ansi", shortcut := none }] }
        { bindOriginal := none, bindRun := none }
        { tokens := ["--ansi", "run", "echo"], firstArgument := some "run",
          options := [("ansi", Val.bool true)] }) =
      some ["poetry", "--ansi", "run", "echo"]
    ∧ claimedRunArgv "poetry" ["--ansi", "run", "echo"] = ["poetry", "run", "echo"]
    ∧ rebuiltArgv (configure_io "poetry" { options := [{ name := "ansi", shortcut := none }] }
        { bindOriginal := none, bindRun := none }
        { tokens := ["--ansi", "run", "echo"], firstArgument := some "run",
          options := [("ansi", Val.bool true)] }) ≠
      some (claimedRunArgv "poetry" ["--ansi", "run", "echo"]) := by
  refine ⟨by rfl, by rfl, by decide⟩

/-- C1 (as amended): when the first positional argument is `"run"`, the
shell's active input is replaced by a rebuilt input whose token stream
is the program name followed by all of the original input's tokens,
verbatim (in particular everything after and including `"run"`); the
tokens from `"run"` onward survive the rebuilt input's parse as opaque
positional data, never reinterpreted as global options; for any other
first positional argument the active input is not replaced. -/
theorem C1_run_rewrite (appName : String) (d : InputDefinition) (bo : BindOracle)
    (inp : ArgvInputModel)
    (h1 : inp.firstArgument = some "run") (h2 : optsDefined d inp.options) :
    (∃ r : RunInputModel,
        configure_io appName d bo inp = .ok (.rebuilt r)
        ∧ r.argv = appName :: inp.tokens
        ∧ inp.tokens.dropWhile (fun t => !(t == "run")) <:+
            (runInputParse r.parameterOptions r.tokens).2)
    ∧ (∀ inp' : ArgvInputModel, inp'.firstArgument ≠ some "run" →
        configure_io appName d bo inp' = .ok (.original inp')) := by
  constructor
  · refine ⟨{ argv := appName :: inp.tokens,
              parameterOptions := specParamOpts d inp.options,
              optionsSet := inp.options.filter (fun p => p.2.truthy) }, ?_, rfl, ?_⟩
    · exact configure_io_run appName d bo inp _ h1 (declareParamOpts_eq d inp.options h2)
    · have hrun : (specParamOpts d inp.options).contains "run" = false := by
        simpa using run_not_mem_specParamOpts d inp.options
      have hsuffix := dropWhile_run_suffix _ hrun inp.tokens
      show inp.tokens.dropWhile (fun t => !(t == "run")) <:+
        (runInputParse (specParamOpts d inp.options) inp.tokens).2
      rw [runInputParse_eq]
      exact hsuffix
  · intro inp' h
    exact configure_io_other appName d bo inp' h

/-- C1 witness: concrete pass-through rewrite. -/
theorem C1_run_rewrite_witness :
    (∃ r : RunInputModel,
        configure_io "poetry" { options := [{ name := "ansi", shortcut := none }] }
            { bindOriginal := none, bindRun := none }
            { tokens := ["--ansi", "run", "echo"], firstArgument := some "run",
              options := [("ansi", Val.bool true)] } = .ok (.rebuilt r)
        ∧ r.argv = "poetry" :: ["--ansi", "run", "echo"]
        ∧ ["--ansi", "run", "echo"].dropWhile (fun t => !(t == "run")) <:+
            (runInputParse r.parameterOptions r.tokens).2) :=
  (C1_run_rewrite "poetry" { options := [{ name := "ansi", shortcut := none }] }
    { bindOriginal := none, bindRun := none }
    { tokens := ["--ansi", "run", "echo"], firstArgument := some "run",
      options := [("ansi", Val.bool true)] } rfl
    (by
      intro p hp ht
      simp only [List.mem_singleton] at hp
      subst hp
      rfl)).1

/-- C3: during the pass-through rewrite, the declared parameter options
and the re-applied values are computed from exactly the options whose
bound value is truthy — the declared options equal the snapshot of the
truthy sublist, the re-applied values are the truthy sublist itself,
and an option with a falsy value contributes to neither. -/
theorem C3_truthy_snapshot (appName : String) (d : InputDefinition) (bo : BindOracle)
    (inp : ArgvInputModel)
    (h1 : inp.firstArgument = some "run") (h2 : optsDefined d inp.options) :
    configure_io appName d bo inp =
      .ok (.rebuilt
        { argv := appName :: inp.tokens,
          parameterOptions := specParamOpts d (inp.options.filter (fun p => p.2.truthy)),
          optionsSet := inp.options.filter (fun p => p.2.truthy) })
    ∧ (∀ n v, (n, v) ∈ inp.options → v.truthy = false →
        (n, v) ∉ inp.options.filter (fun p => p.2.truthy)) := by
  constructor
  · rw [specParamOpts_filter_truthy]
    exact configure_io_run appName d bo inp _ h1 (declareParamOpts_eq d inp.options h2)
  · intro n v _ hf hmemf
    have ht := (List.mem_filter.mp hmemf).2
    simp only at ht
    rw [hf] at ht
    exact Bool.noConfusion ht

/-- C3 witness: a truthy option is declared and re-applied, a falsy one
contributes nothing. -/
theorem C3_truthy_snapshot_witness :
    configure_io "poetry"
        { options := [{ name := "ansi", shortcut := none },
                      { name := "quiet", shortcut := none }] }
        { bindOriginal := none, bindRun := none }
        { tokens := ["--ansi", "run", "echo"], firstArgument := some "run",
          options := [("ansi", Val.bool true), ("quiet", Val.bool false)] } =
      .ok (.rebuilt
        { argv := ["poetry", "--ansi", "run", "echo"],
          parameterOptions := ["--ansi"],
          optionsSet := [("ansi", Val.bool true)] }) := by
  have h := (C3_truthy_snapshot "poetry"
      { options := [{ name := "ansi", shortcut := none },
                    { name := "quiet", shortcut := none }] }
      { bindOriginal := none, bindRun := none }
      { tokens := ["--ansi", "run", "echo"], firstArgument := some "run",
        options := [("ansi", Val.bool true), ("quiet", Val.bool false)] } rfl
      (by
        intro p hp ht
        rcases List.mem_cons.mp hp with h | h
        · subst h; rfl
        · simp only [List.mem_singleton] at h
          subst h
          rfl)).1
  exact h.trans (by rfl)

/-- C4: the packed shortcut spec splits, after stripping leading dashes,
on a bar with an optional following dash, discards empty fragments, and
declares each alias with a single leading dash; `"-v|-vv|-vvv"` yields
exactly the aliases `v`, `vv`, `vvv`, and a shortcut with no alias
characters after stripping contributes no alias option. -/
theorem C4_shortcut_splitting :
    ((splitShortcut (lstripDashes "-v|-vv|-vvv")).filter (fun s => !(s == ""))) =
        ["v", "vv", "vvv"]
    ∧ shortcutParamOpts "-v|-vv|-vvv" = ["-v", "-vv", "-vvv"]
    ∧ declareParamOpts { options := [{ name := "verbose", shortcut := some "-v|-vv|-vvv" }] }
        [("verbose", Val.bool true)] = .ok ["--verbose", "-v", "-vv", "-vvv"]
    ∧ shortcutParamOpts "--" = []
    ∧ declareParamOpts { options := [{ name := "quiet", shortcut := some "--" }] }
        [("quiet", Val.bool true)] = .ok ["--quiet"]
    ∧ (∀ s : String, s.data.all (fun c => c == '-') = true → shortcutParamOpts s = []) := by
  refine ⟨by rfl, by rfl, by rfl, by rfl, by rfl, ?_⟩
  intro s h
  have hstrip : lstripDashes s = "" := by
    rw [lstripDashes, List.dropWhile_eq_nil_iff.mpr (List.all_eq_true.mp h)]
  rw [shortcutParamOpts, hstrip]
  rfl

/-- C4 witness: an all-dash shortcut contributes no alias option. -/
theorem C4_shortcut_splitting_witness : shortcutParamOpts "---" = [] :=
  C4_shortcut_splitting.2.2.2.2.2 "---" (by decide)

/-- C2: the two binding calls of the input rebinder suppress binding
exceptions (the dispatch result does not depend on the bind outcomes,
and `_configure_io` never surfaces a cleo exception), while a plugin
activation failure, a command load failure or a listener failure each
propagates to the shell's top-level error-render step. -/
theorem C2_only_binds_suppressed (appName : String) (d : InputDefinition)
    (o : DispatchOracle) (st : AppState) (inp : ArgvInputModel) :
    (∀ bo : BindOracle,
        appRun appName d { o with bind := bo } st inp = appRun appName d o st inp)
    ∧ (∀ (bo : BindOracle) (e : CleoException),
        configure_io appName d bo inp ≠ .error (.cleo e))
    ∧ (∀ e : Err, o.pluginActivation = some e → st.pluginsLoaded = false →
        hasParameterOption inp.tokens "--no-plugins" = false →
        shellRun appName d o st inp = .rendered e)
    ∧ (∀ (e : Err) (st' : AppState) (act : ActiveInput),
        loadPlugins o.pluginActivation inp.tokens st = .ok st' →
        configure_io appName d o.bind inp = .ok act →
        o.commandLoad = .error e →
        shellRun appName d o st inp = .rendered e)
    ∧ (∀ (e : Err) (st' : AppState) (act : ActiveInput) (cmd : CommandModel),
        loadPlugins o.pluginActivation inp.tokens st = .ok st' →
        configure_io appName d o.bind inp = .ok act →
        o.commandLoad = .ok cmd →
        o.listeners cmd = .error e →
        shellRun appName d o st inp = .rendered e) := by
  refine ⟨?_, ?_, ?_, ?_, ?_⟩
  · intro bo
    cases o with
    | mk b p c l ex =>
      simp only [appRun]
      rw [configure_io_bind_irrel appName d bo b inp]
  · intro bo e
    exact configure_io_no_cleo appName d bo inp e
  · intro e he hl hdp
    have hlp : loadPlugins o.pluginActivation inp.tokens st = .error e := by
      unfold loadPlugins
      simp [hl, hdp, he]
    rw [shellRun, appRun, hlp]
    rfl
  · intro e st' act hlp hcfg hcl
    rw [shellRun, appRun, hlp, hcfg, hcl]
    rfl
  · intro e st' act cmd hlp hcfg hcl hls
    rw [shellRun, appRun, hlp, hcfg, hcl]
    show (match (do
        let cmd2 ← o.listeners cmd
        let code ← o.execute cmd2
        (Except.ok (code, st') : Except Err (Int × AppState))) with
      | Except.ok p => RunOutcome.exited p.1 p.2
      | Except.error er => RunOutcome.rendered er) = RunOutcome.rendered e
    rw [hls]
    rfl

/-- C2 witness: a listener failure reaches the render step. -/
theorem C2_only_binds_suppressed_witness :
    shellRun "poetry" { options := [] }
        { bind := { bindOriginal := none, bindRun := none },
          pluginActivation := none,
          commandLoad := .ok { isCommand := true, loggers := [], isEnvCommand := false,
                               env := none, isInstallerCommand := false, installer := none,
                               poetry := { package := "p", locker := "l", pool := "r",
                                           config := [] } },
          listeners := fun _ => .error (.listenerFailure "boom"),
          execute := fun _ => .ok 0 }
        { pluginsLoaded := false, disablePlugins := false, activations := 0 }
        { tokens := ["about"], firstArgument := some "about", options := [] } =
      .rendered (.listenerFailure "boom") := by
  exact (C2_only_binds_suppressed "poetry" { options := [] } _ _ _).2.2.2.2
    (.listenerFailure "boom")
    { pluginsLoaded := true, disablePlugins := false, activations := 1 }
    (.original { tokens := ["about"], firstArgument := some "about", options := [] })
    { isCommand := true, loggers := [], isEnvCommand := false, env := none,
      isInstallerCommand := false, installer := none,
      poetry := { package := "p", locker := "l", pool := "r", config := [] } }
    (by rfl) (by rfl) rfl rfl
